import Mathlib

/-!
Verification of the boundary-conversion layer of diffai-python
(src/src/lib.rs): the Value Converter (`python_to_json_value` /
`json_value_to_python`), the Diff Result Codec (`diff_result_to_python` /
`python_results_to_rust`), and the Options Builder
(`build_options_from_kwargs`), shallowly embedded over explicit models of
the dynamic Python values seen at the PyO3 boundary and of the canonical
serde_json value tree.
-/

namespace DiffaiPython

/-- Model of a CPython `float` (an IEEE-754 double observed at the language
boundary): finite doubles are abstracted as exact rationals (every finite
double is a rational; no arithmetic is performed on them in this layer, only
construction and comparison), plus the three non-finite values. -/
inductive PyFloat
  | fin (q : Rat)
  | nan
  | inf
  | ninf
deriving DecidableEq

/-- `f64::is_finite` on the model. -/
def PyFloat.isFinite : PyFloat → Bool
  | .fin _ => true
  | _ => false

/-- Model of a dynamic Python object at the PyO3 boundary, covering the
runtime types the converter dispatches on.  A Python `dict` is a finite
insertion-ordered association list (CPython dicts preserve insertion order);
`other` stands for any object of a runtime type outside the six supported
shapes (its argument records the type's name, which the conversion layer
never inspects). -/
inductive PyObj
  | none
  | bool (b : Bool)
  | int (i : Int)
  | float (f : PyFloat)
  | str (s : String)
  | list (items : List PyObj)
  | dict (entries : List (PyObj × PyObj))
  | other (typeName : String)

/-- Model of the Python exceptions this layer can surface: the two
exception kinds raised explicitly in src/src/lib.rs (`PyTypeError`,
`PyValueError`, with their message), plus the host-side failures that
PyO3 extraction and downcasting raise (a `TypeError` naming only the Rust
target type of the failed conversion, an `OverflowError` for an integer
that does not fit `i64`, and a downcast failure naming the expected
container type). -/
inductive PyErr
  | typeError (msg : String)
  | valueError (msg : String)
  | runtimeError (msg : String)
  | extractTypeError (expected : String)
  | overflowError
  | downcastError (expected : String)
deriving DecidableEq

def i64Min : Int := -(2 ^ 63)

def i64Max : Int := 2 ^ 63 - 1

/-- Model of PyO3 `extract::<bool>()`: succeeds exactly on a Python `bool`. -/
def extractBool : PyObj → Except PyErr Bool
  | .bool b => .ok b
  | _ => .error (.extractTypeError "bool")

/-- Model of PyO3 `extract::<i64>()`: a Python `bool` is an `int` subtype and
converts (True = 1, False = 0); a Python `int` converts when it fits in a
signed 64-bit integer and raises `OverflowError` otherwise; every other
runtime type (including `float`) fails with a `TypeError`. -/
def extracti64 : PyObj → Except PyErr Int
  | .bool b => .ok (if b then 1 else 0)
  | .int i => if i64Min ≤ i ∧ i ≤ i64Max then .ok i else .error .overflowError
  | _ => .error (.extractTypeError "int")

/-- Model of PyO3 `extract::<f64>()` (`PyFloat_AsDouble`): a Python `float`
converts as itself; a Python `bool` or `int` converts numerically via
`__float__` (modelled exactly, with no rounding, since finite doubles are
abstracted as rationals); every other runtime type fails with a
`TypeError`. -/
def extractf64 : PyObj → Except PyErr PyFloat
  | .bool b => .ok (.fin (if b then 1 else 0))
  | .int i => .ok (.fin (i : Rat))
  | .float f => .ok f
  | _ => .error (.extractTypeError "float")

/-- Model of PyO3 `extract::<String>()`: succeeds exactly on a Python `str`. -/
def extractString : PyObj → Except PyErr String
  | .str s => .ok s
  | _ => .error (.extractTypeError "str")

/-- Model of `PyAny::is_none`. -/
def isNone : PyObj → Bool
  | .none => true
  | _ => false

/-- Model of `downcast::<PyList>()` as a partial projection. -/
def downcastList : PyObj → Option (List PyObj)
  | .list xs => some xs
  | _ => Option.none

/-- Model of `downcast::<PyDict>()` as a partial projection. -/
def downcastDict : PyObj → Option (List (PyObj × PyObj))
  | .dict es => some es
  | _ => Option.none

/-- Python `==` as used for dict-key lookup by the string keys this layer
uses: a `str` key equals a `str` key with the same text; no key of another
runtime type compares equal to a `str` key. -/
def pyKeyEq : PyObj → PyObj → Bool
  | .str a, .str b => a = b
  | _, _ => false

/-- Model of `PyDict::get_item` with a string key: first entry whose key
compares equal. -/
def dictGet (es : List (PyObj × PyObj)) (k : String) : Option PyObj :=
  (es.find? (fun p => pyKeyEq p.1 (.str k))).map Prod.snd

/-- Model of `PyDict::set_item`: replace the value of an existing equal key
in place, otherwise append the new entry (CPython insertion-order
semantics). -/
def dictSetItem (es : List (PyObj × PyObj)) (k : PyObj) (v : PyObj) : List (PyObj × PyObj) :=
  if es.any (fun p => pyKeyEq p.1 k) then
    es.map (fun p => if pyKeyEq p.1 k then (p.1, v) else p)
  else es ++ [(k, v)]

/-- A Python dict built by a sequence of `set_item` calls starting from
`PyDict::new()`, in the given order. -/
def pyDictOf (items : List (PyObj × PyObj)) : PyObj :=
  .dict (items.foldl (fun es p => dictSetItem es p.1 p.2) [])

/-- Model of `serde_json::Number`: an exactly stored integer (`i64`/`u64`
storage) or a stored finite double (`serde_json::Number::from_f64` refuses
non-finite input, so a float-stored number is always finite and is
abstracted as a rational). -/
inductive JNumber
  | int (i : Int)
  | float (q : Rat)
deriving DecidableEq

/-- Model of `serde_json::Value`.  Objects are modelled as insertion-ordered
association lists with unique keys, following the spec's data model (§3:
"mapping from text key to Value, insertion order preserved, keys unique");
the map type itself lives in the diff core, outside src/. -/
inductive JValue
  | null
  | bool (b : Bool)
  | number (n : JNumber)
  | str (s : String)
  | arr (items : List JValue)
  | obj (entries : List (String × JValue))

/-- Model of `serde_json::Number::from_f64`: `None` on non-finite input,
otherwise a float-stored number. -/
def numberFromF64 : PyFloat → Option JNumber
  | .fin q => some (.float q)
  | _ => Option.none

/-- Model of `serde_json::Number::as_i64`: the stored value when the number
is integer-stored and fits in `i64`; `None` for a float-stored number or a
`u64`-stored value above `i64::MAX`. -/
def jnumberAsI64 : JNumber → Option Int
  | .int i => if i64Min ≤ i ∧ i ≤ i64Max then some i else Option.none
  | .float _ => Option.none

/-- Model of `serde_json::Number::as_f64`: total on the model (exact, since
finite doubles are abstracted as rationals). -/
def jnumberAsF64 : JNumber → Option Rat
  | .int i => some (i : Rat)
  | .float q => some q

/-- Model of `serde_json::Map::insert` under the spec's insertion-order
data model: replace the value of an existing key in place, otherwise
append. -/
def mapInsert (m : List (String × JValue)) (k : String) (v : JValue) : List (String × JValue) :=
  if m.any (fun p => p.1 = k) then
    m.map (fun p => if p.1 = k then (k, v) else p)
  else m ++ [(k, v)]

mutual

/-- Shallow embedding of `python_to_json_value` (src/src/lib.rs:123-155):
the lowering direction of the Value Converter.  It mirrors the source's
if-let chain literally: `is_none`, then `extract::<bool>`, then
`extract::<i64>`, then `extract::<f64>` (with the `from_f64(..).unwrap_or(0)`
sentinel), then `extract::<String>`, then a `PyList` downcast lowering each
item in order, then a `PyDict` downcast extracting each key as a string and
lowering each value in the dict's native order, inserting into the output
map as it goes; anything else raises `PyTypeError("Unsupported Python
type")`. -/
def python_to_json_value (py_obj : PyObj) : Except PyErr JValue :=
  if isNone py_obj then .ok .null
  else match extractBool py_obj with
  | .ok b => .ok (.bool b)
  | .error _ =>
  match extracti64 py_obj with
  | .ok i => .ok (.number (.int i))
  | .error _ =>
  match extractf64 py_obj with
  | .ok f => .ok (.number ((numberFromF64 f).getD (.int 0)))
  | .error _ =>
  match extractString py_obj with
  | .ok s => .ok (.str s)
  | .error _ =>
  match hl : downcastList py_obj with
  | some xs => (lowerItems xs).map JValue.arr
  | Option.none =>
  match hd : downcastDict py_obj with
  | some es => (lowerEntries [] es).map JValue.obj
  | Option.none => .error (.typeError "Unsupported Python type")
termination_by 2 * sizeOf py_obj
decreasing_by
  · have h1 : sizeOf xs < sizeOf py_obj := by
      cases py_obj <;> simp [downcastList] at hl
      subst hl
      simp
    omega
  · have h2 : sizeOf es < sizeOf py_obj := by
      cases py_obj <;> simp [downcastDict] at hd
      subst hd
      simp
    omega

/-- The `for item in list.iter()` loop of `python_to_json_value`'s list
branch: lower each element in order, aborting at the first error. -/
def lowerItems : List PyObj → Except PyErr (List JValue)
  | [] => .ok []
  | x :: xs => do
      let v ← python_to_json_value x
      let vs ← lowerItems xs
      pure (v :: vs)
termination_by l => 2 * sizeOf l + 1
decreasing_by
  all_goals
    simp only [List.cons.sizeOf_spec, Prod.mk.sizeOf_spec]
    omega

/-- The `for (key, value) in dict.iter()` loop of `python_to_json_value`'s
dict branch, carrying the map built so far: extract the key as a string,
lower the value, insert, and continue; abort at the first error. -/
def lowerEntries (acc : List (String × JValue)) :
    List (PyObj × PyObj) → Except PyErr (List (String × JValue))
  | [] => .ok acc
  | (k, v) :: rest => do
      let key_str ← extractString k
      let json_value ← python_to_json_value v
      lowerEntries (mapInsert acc key_str json_value) rest
termination_by l => 2 * sizeOf l + 1
decreasing_by
  all_goals
    simp only [List.cons.sizeOf_spec, Prod.mk.sizeOf_spec]
    omega

end

mutual

/-- Shallow embedding of `json_value_to_python` (src/src/lib.rs:157-188):
the lifting direction of the Value Converter.  Total; the `n.as_i64()` /
`n.as_f64()` / `py.None()` chain of the `Number` case is mirrored exactly
(the final `None` fallback is unreachable for numbers this layer builds). -/
def json_value_to_python : JValue → PyObj
  | .null => .none
  | .bool b => .bool b
  | .number n =>
    match jnumberAsI64 n with
    | some i => .int i
    | Option.none =>
      match jnumberAsF64 n with
      | some q => .float (.fin q)
      | Option.none => .none
  | .str s => .str s
  | .arr items => .list (liftItems items)
  | .obj entries => .dict (liftEntries [] entries)
termination_by v => 2 * sizeOf v
decreasing_by
  all_goals
    simp only [JValue.arr.sizeOf_spec, JValue.obj.sizeOf_spec]
    omega

/-- The `PyList::empty` + `append` loop of `json_value_to_python`'s array
case. -/
def liftItems : List JValue → List PyObj
  | [] => []
  | v :: vs => json_value_to_python v :: liftItems vs
termination_by l => 2 * sizeOf l + 1
decreasing_by
  all_goals
    simp only [List.cons.sizeOf_spec, Prod.mk.sizeOf_spec]
    omega

/-- The `PyDict::new` + `set_item` loop of `json_value_to_python`'s object
case, carrying the dict built so far. -/
def liftEntries (acc : List (PyObj × PyObj)) :
    List (String × JValue) → List (PyObj × PyObj)
  | [] => acc
  | (k, v) :: rest =>
      liftEntries (dictSetItem acc (.str k) (json_value_to_python v)) rest
termination_by l => 2 * sizeOf l + 1
decreasing_by
  all_goals
    simp only [List.cons.sizeOf_spec, Prod.mk.sizeOf_spec]
    omega

end

/-- `diffai_core::TensorStats` (declared in the diff core, outside src/;
its seven fields are pinned both by the spec's §3 data model and by the
field accesses in `tensor_stats_to_python`, src/src/lib.rs:190-200). -/
structure TensorStats where
  mean : PyFloat
  std : PyFloat
  min : PyFloat
  max : PyFloat
  shape : List Nat
  dtype : String
  element_count : Nat

/-- `diffai_core::DiffResult` (declared in the diff core, outside src/; all
fifteen variants and their payloads are pinned by the exhaustive match in
`diff_result_to_python`, src/src/lib.rs:202-296, and by the spec's §3
table).  `f64` payloads are modelled as `PyFloat`, `usize` as `Nat`. -/
inductive DiffResult
  | Added (path : String) (value : JValue)
  | Removed (path : String) (value : JValue)
  | Modified (path : String) (old_value new_value : JValue)
  | TypeChanged (path : String) (old_value new_value : JValue)
  | TensorShapeChanged (path : String) (old_shape new_shape : List Nat)
  | TensorStatsChanged (path : String) (old_stats new_stats : TensorStats)
  | TensorDataChanged (path : String) (old_mean new_mean : PyFloat)
  | ModelArchitectureChanged (path : String) (old_architecture new_architecture : String)
  | WeightSignificantChange (path : String) (change_magnitude : PyFloat)
  | ActivationFunctionChanged (path : String) (old_activation new_activation : String)
  | LearningRateChanged (path : String) (old_learning_rate new_learning_rate : PyFloat)
  | OptimizerChanged (path : String) (old_optimizer new_optimizer : String)
  | LossChange (path : String) (old_loss new_loss : PyFloat)
  | AccuracyChange (path : String) (old_accuracy new_accuracy : PyFloat)
  | ModelVersionChanged (path : String) (old_version new_version : String)

/-- Shallow embedding of `tensor_stats_to_python` (src/src/lib.rs:190-200):
a fresh dict filled by seven `set_item` calls in source order.  A
`Vec<usize>` shape becomes a Python list of ints, a `usize` count a Python
int, `f64` fields Python floats. -/
def tensor_stats_to_python (stats : TensorStats) : PyObj :=
  pyDictOf
    [(.str "mean", .float stats.mean),
     (.str "std", .float stats.std),
     (.str "min", .float stats.min),
     (.str "max", .float stats.max),
     (.str "shape", .list (stats.shape.map (fun n => PyObj.int (n : Int)))),
     (.str "dtype", .str stats.dtype),
     (.str "element_count", .int (stats.element_count : Int))]

/-- Shallow embedding of `diff_result_to_python` (src/src/lib.rs:202-296):
the encode direction of the Diff Result Codec.  Each variant fills a fresh
dict by `set_item` calls in source order: first `"type"` with the variant's
exact name, then `"path"`, then the per-variant payload fields; `Value`
payloads go through `json_value_to_python`.  Total (the source's `PyResult`
wrapper never carries an error for these item types). -/
def diff_result_to_python (result : DiffResult) : PyObj :=
  match result with
  | .Added path value =>
      pyDictOf
        [(.str "type", .str "Added"), (.str "path", .str path),
         (.str "value", json_value_to_python value)]
  | .Removed path value =>
      pyDictOf
        [(.str "type", .str "Removed"), (.str "path", .str path),
         (.str "value", json_value_to_python value)]
  | .Modified path old_val new_val =>
      pyDictOf
        [(.str "type", .str "Modified"), (.str "path", .str path),
         (.str "old_value", json_value_to_python old_val),
         (.str "new_value", json_value_to_python new_val)]
  | .TypeChanged path old_val new_val =>
      pyDictOf
        [(.str "type", .str "TypeChanged"), (.str "path", .str path),
         (.str "old_value", json_value_to_python old_val),
         (.str "new_value", json_value_to_python new_val)]
  | .TensorShapeChanged path old_shape new_shape =>
      pyDictOf
        [(.str "type", .str "TensorShapeChanged"), (.str "path", .str path),
         (.str "old_shape", .list (old_shape.map (fun n => PyObj.int (n : Int)))),
         (.str "new_shape", .list (new_shape.map (fun n => PyObj.int (n : Int))))]
  | .TensorStatsChanged path old_stats new_stats =>
      pyDictOf
        [(.str "type", .str "TensorStatsChanged"), (.str "path", .str path),
         (.str "old_stats", tensor_stats_to_python old_stats),
         (.str "new_stats", tensor_stats_to_python new_stats)]
  | .TensorDataChanged path old_mean new_mean =>
      pyDictOf
        [(.str "type", .str "TensorDataChanged"), (.str "path", .str path),
         (.str "old_mean", .float old_mean), (.str "new_mean", .float new_mean)]
  | .ModelArchitectureChanged path old_arch new_arch =>
      pyDictOf
        [(.str "type", .str "ModelArchitectureChanged"), (.str "path", .str path),
         (.str "old_architecture", .str old_arch),
         (.str "new_architecture", .str new_arch)]
  | .WeightSignificantChange path magnitude =>
      pyDictOf
        [(.str "type", .str "WeightSignificantChange"), (.str "path", .str path),
         (.str "change_magnitude", .float magnitude)]
  | .ActivationFunctionChanged path old_fn new_fn =>
      pyDictOf
        [(.str "type", .str "ActivationFunctionChanged"), (.str "path", .str path),
         (.str "old_activation", .str old_fn), (.str "new_activation", .str new_fn)]
  | .LearningRateChanged path old_lr new_lr =>
      pyDictOf
        [(.str "type", .str "LearningRateChanged"), (.str "path", .str path),
         (.str "old_learning_rate", .float old_lr),
         (.str "new_learning_rate", .float new_lr)]
  | .OptimizerChanged path old_opt new_opt =>
      pyDictOf
        [(.str "type", .str "OptimizerChanged"), (.str "path", .str path),
         (.str "old_optimizer", .str old_opt), (.str "new_optimizer", .str new_opt)]
  | .LossChange path old_loss new_loss =>
      pyDictOf
        [(.str "type", .str "LossChange"), (.str "path", .str path),
         (.str "old_loss", .float old_loss), (.str "new_loss", .float new_loss)]
  | .AccuracyChange path old_acc new_acc =>
      pyDictOf
        [(.str "type", .str "AccuracyChange"), (.str "path", .str path),
         (.str "old_accuracy", .float old_acc), (.str "new_accuracy", .float new_acc)]
  | .ModelVersionChanged path old_ver new_ver =>
      pyDictOf
        [(.str "type", .str "ModelVersionChanged"), (.str "path", .str path),
         (.str "old_version", .str old_ver), (.str "new_version", .str new_ver)]

/-- The body of the `for item in results.iter()` loop of
`python_results_to_rust` (src/src/lib.rs:301-361): downcast the item to a
dict, read and extract `"type"` and `"path"`, dispatch on the type string
(only `"Added"`, `"Removed"`, `"Modified"`, `"TypeChanged"` are handled),
read the per-variant payload fields and lower them with
`python_to_json_value`; any other type string raises
`PyValueError("Invalid diff type: ...")`. -/
def pythonResultToRustItem (item : PyObj) : Except PyErr DiffResult := do
  let es ← match downcastDict item with
    | some es => Except.ok es
    | Option.none => Except.error (PyErr.downcastError "dict")
  let typeObj ← match dictGet es "type" with
    | some v => Except.ok v
    | Option.none => Except.error (PyErr.valueError "Missing 'type' field")
  let diff_type ← extractString typeObj
  let pathObj ← match dictGet es "path" with
    | some v => Except.ok v
    | Option.none => Except.error (PyErr.valueError "Missing 'path' field")
  let path ← extractString pathObj
  match diff_type with
  | "Added" => do
      let value ← match dictGet es "value" with
        | some v => Except.ok v
        | Option.none => Except.error (PyErr.valueError "Missing 'value' field")
      let jv ← python_to_json_value value
      pure (DiffResult.Added path jv)
  | "Removed" => do
      let value ← match dictGet es "value" with
        | some v => Except.ok v
        | Option.none => Except.error (PyErr.valueError "Missing 'value' field")
      let jv ← python_to_json_value value
      pure (DiffResult.Removed path jv)
  | "Modified" => do
      let old_value ← match dictGet es "old_value" with
        | some v => Except.ok v
        | Option.none => Except.error (PyErr.valueError "Missing 'old_value' field")
      let new_value ← match dictGet es "new_value" with
        | some v => Except.ok v
        | Option.none => Except.error (PyErr.valueError "Missing 'new_value' field")
      let jold ← python_to_json_value old_value
      let jnew ← python_to_json_value new_value
      pure (DiffResult.Modified path jold jnew)
  | "TypeChanged" => do
      let old_value ← match dictGet es "old_value" with
        | some v => Except.ok v
        | Option.none => Except.error (PyErr.valueError "Missing 'old_value' field")
      let new_value ← match dictGet es "new_value" with
        | some v => Except.ok v
        | Option.none => Except.error (PyErr.valueError "Missing 'new_value' field")
      let jold ← python_to_json_value old_value
      let jnew ← python_to_json_value new_value
      pure (DiffResult.TypeChanged path jold jnew)
  | t => Except.error (PyErr.valueError ("Invalid diff type: " ++ t))

/-- Shallow embedding of `python_results_to_rust` (src/src/lib.rs:298-365):
the decode direction of the Diff Result Codec over a Python list of result
objects, in order, aborting at the first failing item. -/
def python_results_to_rust : List PyObj → Except PyErr (List DiffResult)
  | [] => .ok []
  | item :: rest => do
      let r ← pythonResultToRustItem item
      let rs ← python_results_to_rust rest
      pure (r :: rs)

/-- `diffai_core::OutputFormat` (declared in the diff core, outside src/;
the three enumerants are fixed by the spec's §3 data model). -/
inductive OutputFormat
  | Diffai
  | Json
  | Yaml
deriving DecidableEq

/-- Modelled from the spec: `OutputFormat::parse_format` lives in the diff
core, outside src/. §4.3 and §6 fix its accepted strings as exactly
"diffai", "json" and "yaml", anything else failing with the offending
value. -/
def parse_format (s : String) : Except String OutputFormat :=
  if s = "diffai" then .ok .Diffai
  else if s = "json" then .ok .Json
  else if s = "yaml" then .ok .Yaml
  else .error s

/-- Parenthesis balance check used as the model of regex-pattern
well-formedness. -/
def parensBalanced (depth : Int) : List Char → Bool
  | [] => depth = 0
  | c :: cs =>
    if c = '(' then parensBalanced (depth + 1) cs
    else if c = ')' then decide (0 < depth) && parensBalanced (depth - 1) cs
    else parensBalanced depth cs

/-- Modelled from the spec: `Regex::new` is the external regex crate used
at src/src/lib.rs:381; §4.3 requires only that a malformed pattern (its
example: an unbalanced "(") fail compilation.  Well-formedness is modelled
as parenthesis balance, and a compiled regex is represented by its source
pattern. -/
def regexNew (pattern : String) : Except String String :=
  if parensBalanced 0 pattern.toList then .ok pattern else .error pattern

/-- `diffai_core::DiffOptions` (declared in the diff core, outside src/;
its five fields are pinned by the field assignments in
`build_options_from_kwargs`, src/src/lib.rs:367-403, and by the spec's §3
data model).  The compiled-regex field is represented by its source
pattern. -/
structure DiffOptions where
  epsilon : Option PyFloat
  array_id_key : Option String
  ignore_keys_regex : Option String
  path_filter : Option String
  output_format : Option OutputFormat
deriving DecidableEq

/-- `DiffOptions::default()`: every optional field empty. -/
def defaultOptions : DiffOptions :=
  { epsilon := Option.none, array_id_key := Option.none,
    ignore_keys_regex := Option.none, path_filter := Option.none,
    output_format := Option.none }

/-- Shallow embedding of `build_options_from_kwargs`
(src/src/lib.rs:367-403): starting from default options, for each of the
five recognized keys present in the kwargs dict, extract the value at its
expected type (propagating the extraction error unchanged on failure) and
store it; `ignore_keys_regex` additionally compiles the pattern, failing
with `PyValueError("Invalid regex: ...")`, and `output_format` parses the
enumerant, failing with `PyValueError("Invalid output format: ...")`. -/
def build_options_from_kwargs (kwargs : Option (List (PyObj × PyObj))) :
    Except PyErr DiffOptions := do
  let options := defaultOptions
  match kwargs with
  | Option.none => pure options
  | some kw => do
    let options ← match dictGet kw "epsilon" with
      | some v => do
          let e ← extractf64 v
          pure { options with epsilon := some e }
      | Option.none => pure options
    let options ← match dictGet kw "array_id_key" with
      | some v => do
          let s ← extractString v
          pure { options with array_id_key := some s }
      | Option.none => pure options
    let options ← match dictGet kw "ignore_keys_regex" with
      | some v => do
          let pattern ← extractString v
          match regexNew pattern with
          | .ok r => pure { options with ignore_keys_regex := some r }
          | .error e => Except.error (PyErr.valueError ("Invalid regex: " ++ e))
      | Option.none => pure options
    let options ← match dictGet kw "path_filter" with
      | some v => do
          let s ← extractString v
          pure { options with path_filter := some s }
      | Option.none => pure options
    let options ← match dictGet kw "output_format" with
      | some v => do
          let format_str ← extractString v
          match parse_format format_str with
          | .ok f => pure { options with output_format := some f }
          | .error e => Except.error (PyErr.valueError ("Invalid output format: " ++ e))
      | Option.none => pure options
    pure options

/-- A key occurs (under Python key equality) among the keys of a dict's
entry list. -/
def keyOccurs (k : PyObj) : List (PyObj × PyObj) → Bool
  | [] => false
  | (k2, _) :: rest => pyKeyEq k2 k || keyOccurs k rest

/-- The keys of a dict's entry list are pairwise distinct under Python key
equality (an invariant of every real Python dict). -/
def entryKeysNodup : List (PyObj × PyObj) → Bool
  | [] => true
  | (k, _) :: rest => !keyOccurs k rest && entryKeysNodup rest

/-- The key is a Python `str`. -/
def isStrKey : PyObj → Bool
  | .str _ => true
  | _ => false

mutual

/-- The dynamic values within the round-trip claim's scope: built only from
the six supported shapes (no `other` anywhere), with every mapping keyed by
text (with the distinct keys every real Python dict has), every float
finite, and every integer representable in 64 bits signed. -/
def pySupported : PyObj → Bool
  | .none => true
  | .bool _ => true
  | .int i => decide (i64Min ≤ i ∧ i ≤ i64Max)
  | .float f => f.isFinite
  | .str _ => true
  | .list xs => pySupportedList xs
  | .dict es => entryKeysNodup es && pySupportedEntries es
  | .other _ => false
termination_by x => sizeOf x

def pySupportedList : List PyObj → Bool
  | [] => true
  | x :: xs => pySupported x && pySupportedList xs
termination_by l => sizeOf l
decreasing_by
  all_goals
    simp only [List.cons.sizeOf_spec, Prod.mk.sizeOf_spec]
    omega

def pySupportedEntries : List (PyObj × PyObj) → Bool
  | [] => true
  | (k, v) :: rest => isStrKey k && pySupported v && pySupportedEntries rest
termination_by l => sizeOf l
decreasing_by
  all_goals
    simp only [List.cons.sizeOf_spec, Prod.mk.sizeOf_spec]
    omega

end

/-- A string key occurs among an object's entry keys. -/
def objKeyOccurs (k : String) : List (String × JValue) → Bool
  | [] => false
  | (k2, _) :: rest => k2 = k || objKeyOccurs k rest

/-- The keys of an object's entry list are pairwise distinct. -/
def objKeysNodup : List (String × JValue) → Bool
  | [] => true
  | (k, _) :: rest => !objKeyOccurs k rest && objKeysNodup rest

mutual

/-- The invariants every value a real `serde_json::Value` satisfies by
construction: integer-stored numbers are within the `i64`/`u64` storage
range, and object keys are unique (float-stored numbers are finite by
construction of the model). -/
def JValue.wf : JValue → Bool
  | .null => true
  | .bool _ => true
  | .number (.int i) => decide (i64Min ≤ i ∧ i < 2 ^ 64)
  | .number (.float _) => true
  | .str _ => true
  | .arr xs => JValue.wfList xs
  | .obj es => objKeysNodup es && JValue.wfEntries es
termination_by v => sizeOf v

def JValue.wfList : List JValue → Bool
  | [] => true
  | v :: vs => JValue.wf v && JValue.wfList vs
termination_by l => sizeOf l
decreasing_by
  all_goals
    simp only [List.cons.sizeOf_spec, Prod.mk.sizeOf_spec]
    omega

def JValue.wfEntries : List (String × JValue) → Bool
  | [] => true
  | (_, v) :: rest => JValue.wf v && JValue.wfEntries rest
termination_by l => sizeOf l
decreasing_by
  all_goals
    simp only [List.cons.sizeOf_spec, Prod.mk.sizeOf_spec]
    omega

end

/-- The text of a Python `str` key (junk on other shapes; only used where
the key is known to be a `str`). -/
def keyStr : PyObj → String
  | .str s => s
  | _ => ""

/-- The lowered value of a Python object whose lowering is known to
succeed (junk otherwise). -/
def lowerOk (x : PyObj) : JValue :=
  (python_to_json_value x).toOption.getD .null

mutual

/-- The normalization a lift-then-lower round trip performs on a canonical
value: an integer-stored number outside the signed 64-bit range surfaces as
a Python float and comes back float-stored; everything else survives
unchanged. -/
def jnorm : JValue → JValue
  | .null => .null
  | .bool b => .bool b
  | .number (.int i) =>
      if i64Min ≤ i ∧ i ≤ i64Max then .number (.int i)
      else .number (.float (i : Rat))
  | .number (.float q) => .number (.float q)
  | .str s => .str s
  | .arr xs => .arr (jnormList xs)
  | .obj es => .obj (jnormEntries es)
termination_by v => sizeOf v

def jnormList : List JValue → List JValue
  | [] => []
  | v :: vs => jnorm v :: jnormList vs
termination_by l => sizeOf l
decreasing_by
  all_goals
    simp only [List.cons.sizeOf_spec, Prod.mk.sizeOf_spec]
    omega

def jnormEntries : List (String × JValue) → List (String × JValue)
  | [] => []
  | (k, v) :: rest => (k, jnorm v) :: jnormEntries rest
termination_by l => sizeOf l
decreasing_by
  all_goals
    simp only [List.cons.sizeOf_spec, Prod.mk.sizeOf_spec]
    omega

end

/-- Written from the spec's words (§4.2 encode contract with §3's
`TensorStats` record): "an Object with its seven named fields". Used only
to state the refinement claim against `tensor_stats_to_python`. -/
def specEncodeTensorStats (stats : TensorStats) : PyObj :=
  .dict
    [(.str "mean", .float stats.mean),
     (.str "std", .float stats.std),
     (.str "min", .float stats.min),
     (.str "max", .float stats.max),
     (.str "shape", .list (stats.shape.map (fun n => PyObj.int (n : Int)))),
     (.str "dtype", .str stats.dtype),
     (.str "element_count", .int (stats.element_count : Nat))]

/-- Written from the spec's words (§4.2 encode contract with §3's payload
table): "an Object whose `type` field is the variant's name (exact strings
as listed in §3) and whose `path` field is the path text; remaining fields
follow the per-variant payload table", with Value payloads lifted to host
form, numeric/text payloads inserted directly, and `TensorStats` encoded
as an Object with its seven named fields.  Used only to state the
refinement claim against `diff_result_to_python`. -/
def specEncodeDiffResult : DiffResult → PyObj
  | .Added path value =>
      .dict [(.str "type", .str "Added"), (.str "path", .str path),
        (.str "value", json_value_to_python value)]
  | .Removed path value =>
      .dict [(.str "type", .str "Removed"), (.str "path", .str path),
        (.str "value", json_value_to_python value)]
  | .Modified path old_value new_value =>
      .dict [(.str "type", .str "Modified"), (.str "path", .str path),
        (.str "old_value", json_value_to_python old_value),
        (.str "new_value", json_value_to_python new_value)]
  | .TypeChanged path old_value new_value =>
      .dict [(.str "type", .str "TypeChanged"), (.str "path", .str path),
        (.str "old_value", json_value_to_python old_value),
        (.str "new_value", json_value_to_python new_value)]
  | .TensorShapeChanged path old_shape new_shape =>
      .dict [(.str "type", .str "TensorShapeChanged"), (.str "path", .str path),
        (.str "old_shape", .list (old_shape.map (fun n => PyObj.int (n : Int)))),
        (.str "new_shape", .list (new_shape.map (fun n => PyObj.int (n : Int))))]
  | .TensorStatsChanged path old_stats new_stats =>
      .dict [(.str "type", .str "TensorStatsChanged"), (.str "path", .str path),
        (.str "old_stats", specEncodeTensorStats old_stats),
        (.str "new_stats", specEncodeTensorStats new_stats)]
  | .TensorDataChanged path old_mean new_mean =>
      .dict [(.str "type", .str "TensorDataChanged"), (.str "path", .str path),
        (.str "old_mean", .float old_mean), (.str "new_mean", .float new_mean)]
  | .ModelArchitectureChanged path old_architecture new_architecture =>
      .dict [(.str "type", .str "ModelArchitectureChanged"), (.str "path", .str path),
        (.str "old_architecture", .str old_architecture),
        (.str "new_architecture", .str new_architecture)]
  | .WeightSignificantChange path change_magnitude =>
      .dict [(.str "type", .str "WeightSignificantChange"), (.str "path", .str path),
        (.str "change_magnitude", .float change_magnitude)]
  | .ActivationFunctionChanged path old_activation new_activation =>
      .dict [(.str "type", .str "ActivationFunctionChanged"), (.str "path", .str path),
        (.str "old_activation", .str old_activation),
        (.str "new_activation", .str new_activation)]
  | .LearningRateChanged path old_learning_rate new_learning_rate =>
      .dict [(.str "type", .str "LearningRateChanged"), (.str "path", .str path),
        (.str "old_learning_rate", .float old_learning_rate),
        (.str "new_learning_rate", .float new_learning_rate)]
  | .OptimizerChanged path old_optimizer new_optimizer =>
      .dict [(.str "type", .str "OptimizerChanged"), (.str "path", .str path),
        (.str "old_optimizer", .str old_optimizer),
        (.str "new_optimizer", .str new_optimizer)]
  | .LossChange path old_loss new_loss =>
      .dict [(.str "type", .str "LossChange"), (.str "path", .str path),
        (.str "old_loss", .float old_loss), (.str "new_loss", .float new_loss)]
  | .AccuracyChange path old_accuracy new_accuracy =>
      .dict [(.str "type", .str "AccuracyChange"), (.str "path", .str path),
        (.str "old_accuracy", .float old_accuracy),
        (.str "new_accuracy", .float new_accuracy)]
  | .ModelVersionChanged path old_version new_version =>
      .dict [(.str "type", .str "ModelVersionChanged"), (.str "path", .str path),
        (.str "old_version", .str old_version),
        (.str "new_version", .str new_version)]

/-- Structural induction principle for the nested inductive `PyObj`, with
membership hypotheses for list items and dict entry values. -/
theorem pyObjInductionOn (P : PyObj → Prop)
    (hnone : P .none)
    (hbool : ∀ b, P (.bool b))
    (hint : ∀ i, P (.int i))
    (hfloat : ∀ f, P (.float f))
    (hstr : ∀ s, P (.str s))
    (hlist : ∀ xs, (∀ x ∈ xs, P x) → P (.list xs))
    (hdict : ∀ es, (∀ kv ∈ es, P kv.2) → P (.dict es))
    (hother : ∀ t, P (.other t)) : ∀ x, P x := fun x =>
  match x with
  | .none => hnone
  | .bool b => hbool b
  | .int i => hint i
  | .float f => hfloat f
  | .str s => hstr s
  | .list xs => hlist xs (fun a ha =>
      have : sizeOf a < sizeOf (PyObj.list xs) := by
        have h1 := List.sizeOf_lt_of_mem ha
        simp only [PyObj.list.sizeOf_spec]
        omega
      pyObjInductionOn P hnone hbool hint hfloat hstr hlist hdict hother a)
  | .dict es => hdict es (fun kv hkv =>
      have : sizeOf kv.2 < 1 + sizeOf es := by
        have h1 := List.sizeOf_lt_of_mem hkv
        have h2 : sizeOf kv.2 < sizeOf kv := by
          obtain ⟨a, b⟩ := kv
          simp only [Prod.mk.sizeOf_spec]
          omega
        omega
      pyObjInductionOn P hnone hbool hint hfloat hstr hlist hdict hother kv.2)
  | .other t => hother t
termination_by x => sizeOf x

/-- Structural induction principle for the nested inductive `JValue`, with
membership hypotheses for array items and object entry values. -/
theorem jvalueInductionOn (P : JValue → Prop)
    (hnull : P .null)
    (hbool : ∀ b, P (.bool b))
    (hnum : ∀ n, P (.number n))
    (hstr : ∀ s, P (.str s))
    (harr : ∀ xs, (∀ x ∈ xs, P x) → P (.arr xs))
    (hobj : ∀ es, (∀ kv ∈ es, P kv.2) → P (.obj es)) : ∀ v, P v := fun v =>
  match v with
  | .null => hnull
  | .bool b => hbool b
  | .number n => hnum n
  | .str s => hstr s
  | .arr xs => harr xs (fun a ha =>
      have : sizeOf a < sizeOf (JValue.arr xs) := by
        have h1 := List.sizeOf_lt_of_mem ha
        simp only [JValue.arr.sizeOf_spec]
        omega
      jvalueInductionOn P hnull hbool hnum hstr harr hobj a)
  | .obj es => hobj es (fun kv hkv =>
      have : sizeOf kv.2 < 1 + sizeOf es := by
        have h1 := List.sizeOf_lt_of_mem hkv
        have h2 : sizeOf kv.2 < sizeOf kv := by
          obtain ⟨a, b⟩ := kv
          simp only [Prod.mk.sizeOf_spec]
          omega
        omega
      jvalueInductionOn P hnull hbool hnum hstr harr hobj kv.2)
termination_by v => sizeOf v

theorem lower_pynone : python_to_json_value .none = .ok .null := by
  simp [python_to_json_value, isNone]

theorem lower_pybool (b : Bool) :
    python_to_json_value (.bool b) = .ok (.bool b) := by
  simp [python_to_json_value, isNone, extractBool]

theorem lower_pyint_inrange {i : Int} (h1 : i64Min ≤ i) (h2 : i ≤ i64Max) :
    python_to_json_value (.int i) = .ok (.number (.int i)) := by
  simp [python_to_json_value, isNone, extractBool, extracti64, h1, h2]

theorem lower_pyint_overflow {i : Int} (h : ¬(i64Min ≤ i ∧ i ≤ i64Max)) :
    python_to_json_value (.int i) = .ok (.number (.float (i : Rat))) := by
  simp [python_to_json_value, isNone, extractBool, extracti64, extractf64, h,
    numberFromF64]

theorem lower_pyfloat (f : PyFloat) :
    python_to_json_value (.float f) =
      .ok (.number ((numberFromF64 f).getD (.int 0))) := by
  simp [python_to_json_value, isNone, extractBool, extracti64, extractf64]

theorem lower_pystr (s : String) :
    python_to_json_value (.str s) = .ok (.str s) := by
  simp [python_to_json_value, isNone, extractBool, extracti64, extractf64,
    extractString]

theorem lower_pylist (xs : List PyObj) :
    python_to_json_value (.list xs) = (lowerItems xs).map JValue.arr := by
  rw [python_to_json_value]
  simp [isNone, extractBool, extracti64, extractf64, extractString,
    downcastList]

theorem lower_pydict (es : List (PyObj × PyObj)) :
    python_to_json_value (.dict es) = (lowerEntries [] es).map JValue.obj := by
  rw [python_to_json_value]
  simp [isNone, extractBool, extracti64, extractf64, extractString,
    downcastList, downcastDict]

theorem lower_pyother (t : String) :
    python_to_json_value (.other t) =
      .error (.typeError "Unsupported Python type") := by
  simp [python_to_json_value, isNone, extractBool, extracti64, extractf64,
    extractString, downcastList, downcastDict]

theorem lift_null : json_value_to_python .null = .none := by
  simp [json_value_to_python]

theorem lift_bool (b : Bool) : json_value_to_python (.bool b) = .bool b := by
  simp [json_value_to_python]

theorem lift_number_int_inrange {i : Int} (h1 : i64Min ≤ i) (h2 : i ≤ i64Max) :
    json_value_to_python (.number (.int i)) = .int i := by
  simp [json_value_to_python, jnumberAsI64, h1, h2]

theorem lift_number_int_big {i : Int} (h : ¬(i64Min ≤ i ∧ i ≤ i64Max)) :
    json_value_to_python (.number (.int i)) = .float (.fin (i : Rat)) := by
  simp [json_value_to_python, jnumberAsI64, jnumberAsF64, h]

theorem lift_number_float (q : Rat) :
    json_value_to_python (.number (.float q)) = .float (.fin q) := by
  simp [json_value_to_python, jnumberAsI64, jnumberAsF64]

theorem lift_str (s : String) : json_value_to_python (.str s) = .str s := by
  simp [json_value_to_python]

theorem lift_arr (xs : List JValue) :
    json_value_to_python (.arr xs) = .list (liftItems xs) := by
  simp [json_value_to_python]

theorem lift_obj (es : List (String × JValue)) :
    json_value_to_python (.obj es) = .dict (liftEntries [] es) := by
  simp [json_value_to_python]

theorem pyKeyEq_comm (a b : PyObj) : pyKeyEq a b = pyKeyEq b a := by
  cases a <;> cases b <;> simp [pyKeyEq, eq_comm]

theorem keyOccurs_eq_false_iff {k : PyObj} {es : List (PyObj × PyObj)} :
    keyOccurs k es = false ↔ ∀ q ∈ es, pyKeyEq q.1 k = false := by
  induction es with
  | nil => simp [keyOccurs]
  | cons p rest ih =>
      obtain ⟨k2, v2⟩ := p
      simp [keyOccurs, ih]

theorem entryKeysNodup_pairwise {es : List (PyObj × PyObj)}
    (h : entryKeysNodup es = true) :
    es.Pairwise (fun p q => pyKeyEq q.1 p.1 = false) := by
  induction es with
  | nil => simp
  | cons p rest ih =>
      obtain ⟨k, v⟩ := p
      simp only [entryKeysNodup, Bool.and_eq_true, Bool.not_eq_true'] at h
      refine List.Pairwise.cons ?_ (ih h.2)
      intro q hq
      exact (keyOccurs_eq_false_iff.mp h.1) q hq

theorem pySupportedList_iff {xs : List PyObj} :
    pySupportedList xs = true ↔ ∀ x ∈ xs, pySupported x = true := by
  induction xs with
  | nil => simp [pySupportedList]
  | cons x rest ih => simp [pySupportedList, ih]

theorem pySupportedEntries_iff {es : List (PyObj × PyObj)} :
    pySupportedEntries es = true ↔
      ∀ kv ∈ es, isStrKey kv.1 = true ∧ pySupported kv.2 = true := by
  induction es with
  | nil => simp [pySupportedEntries]
  | cons p rest ih =>
      obtain ⟨k, v⟩ := p
      simp [pySupportedEntries, ih]

theorem mapInsert_fresh {m : List (String × JValue)} {k : String} (v : JValue)
    (h : ∀ q ∈ m, q.1 ≠ k) : mapInsert m k v = m ++ [(k, v)] := by
  have hany : m.any (fun p => p.1 = k) = false := by
    simp only [List.any_eq_false, decide_eq_true_eq]
    exact h
  simp [mapInsert, hany]

theorem dictSetItem_fresh {es : List (PyObj × PyObj)} {k : PyObj} (v : PyObj)
    (h : ∀ q ∈ es, pyKeyEq q.1 k = false) : dictSetItem es k v = es ++ [(k, v)] := by
  have hany : es.any (fun p => pyKeyEq p.1 k) = false := by
    simp only [List.any_eq_false]
    intro q hq
    simp [h q hq]
  simp [dictSetItem, hany]

theorem liftItems_eq (vs : List JValue) :
    liftItems vs = vs.map json_value_to_python := by
  induction vs with
  | nil => simp [liftItems]
  | cons v rest ih => simp [liftItems, ih]

theorem lowerItems_ok :
    ∀ (xs : List PyObj),
    (∀ x ∈ xs, ∃ w, python_to_json_value x = .ok w) →
    lowerItems xs = .ok (xs.map lowerOk) := by
  intro xs
  induction xs with
  | nil => intro _; simp [lowerItems]
  | cons x rest ih =>
      intro h
      obtain ⟨w, hw⟩ := h x (by simp)
      have hx : lowerOk x = w := by
        simp [lowerOk, hw, Except.toOption]
      rw [lowerItems, hw, ih (fun a ha => h a (by simp [ha]))]
      simp [hx, bind, Except.bind, pure, Except.pure]

theorem lowerEntries_ok :
    ∀ (es : List (PyObj × PyObj)) (jacc : List (String × JValue)),
    (∀ kv ∈ es, ∃ s, kv.1 = PyObj.str s) →
    (∀ kv ∈ es, ∃ w, python_to_json_value kv.2 = .ok w) →
    entryKeysNodup es = true →
    (∀ kv ∈ es, ∀ q ∈ jacc, q.1 ≠ keyStr kv.1) →
    lowerEntries jacc es =
      .ok (jacc ++ es.map (fun kv => (keyStr kv.1, lowerOk kv.2))) := by
  intro es
  induction es with
  | nil => intro jacc _ _ _ _; simp [lowerEntries]
  | cons p rest ih =>
      intro jacc h1 h2 h3 h4
      obtain ⟨k, v⟩ := p
      obtain ⟨s, hs⟩ := h1 (k, v) (by simp)
      obtain ⟨w, hw⟩ := h2 (k, v) (by simp)
      simp only at hs hw
      subst hs
      have hv : lowerOk v = w := by
        simp [lowerOk, hw, Except.toOption]
      simp only [entryKeysNodup, Bool.and_eq_true, Bool.not_eq_true'] at h3
      have hins : mapInsert jacc s w = jacc ++ [(s, w)] :=
        mapInsert_fresh w (fun q hq => by
          have := h4 (PyObj.str s, v) (by simp) q hq
          simpa [keyStr] using this)
      have hfresh : ∀ kv ∈ rest, ∀ q ∈ jacc ++ [(s, w)], q.1 ≠ keyStr kv.1 := by
        intro kv hkv q hq
        rcases List.mem_append.mp hq with hq1 | hq2
        · exact h4 kv (by simp [hkv]) q hq1
        · have hocc := (keyOccurs_eq_false_iff.mp h3.1) kv hkv
          obtain ⟨s2, hs2⟩ := h1 kv (by simp [hkv])
          simp only [List.mem_singleton] at hq2
          subst hq2
          rw [hs2] at hocc ⊢
          simp only [pyKeyEq] at hocc
          simp only [keyStr]
          simp only [decide_eq_false_iff_not] at hocc
          exact fun h => hocc h.symm
      have hrec := ih (jacc ++ [(s, w)])
        (fun kv hkv => h1 kv (by simp [hkv]))
        (fun kv hkv => h2 kv (by simp [hkv]))
        h3.2 hfresh
      simp only [lowerEntries, extractString, hw, bind, Except.bind, hins, hrec]
      simp [keyStr, hv, List.append_assoc]

theorem liftEntries_eq :
    ∀ (ps : List (String × JValue)) (pacc : List (PyObj × PyObj)),
    ps.Pairwise (fun a b => a.1 ≠ b.1) →
    (∀ q ∈ ps, ∀ p ∈ pacc, pyKeyEq p.1 (.str q.1) = false) →
    liftEntries pacc ps =
      pacc ++ ps.map (fun q => (PyObj.str q.1, json_value_to_python q.2)) := by
  intro ps
  induction ps with
  | nil => intro pacc _ _; simp [liftEntries]
  | cons q rest ih =>
      intro pacc hpw h4
      obtain ⟨k, v⟩ := q
      have hins : dictSetItem pacc (.str k) (json_value_to_python v) =
          pacc ++ [(.str k, json_value_to_python v)] :=
        dictSetItem_fresh _ (fun p hp => h4 (k, v) (by simp) p hp)
      rw [List.pairwise_cons] at hpw
      have hfresh : ∀ q2 ∈ rest,
          ∀ p ∈ pacc ++ [(PyObj.str k, json_value_to_python v)],
          pyKeyEq p.1 (.str q2.1) = false := by
        intro q2 hq2 p hp
        rcases List.mem_append.mp hp with hp1 | hp2
        · exact h4 q2 (by simp [hq2]) p hp1
        · simp only [List.mem_singleton] at hp2
          subst hp2
          have : k ≠ q2.1 := hpw.1 q2 hq2
          simp [pyKeyEq, this]
      rw [liftEntries, hins, ih _ hpw.2 hfresh]
      simp [List.append_assoc]

theorem isStrKey_exists {k : PyObj} (h : isStrKey k = true) :
    ∃ s, k = PyObj.str s := by
  cases k <;> simp [isStrKey] at h ⊢

theorem entryKeysNodup_of_pairwise {es : List (PyObj × PyObj)}
    (h : es.Pairwise (fun p q => pyKeyEq q.1 p.1 = false)) :
    entryKeysNodup es = true := by
  induction es with
  | nil => simp [entryKeysNodup]
  | cons p rest ih =>
      obtain ⟨k, v⟩ := p
      rw [List.pairwise_cons] at h
      simp only [entryKeysNodup, Bool.and_eq_true, Bool.not_eq_true']
      refine ⟨keyOccurs_eq_false_iff.mpr (fun q hq => h.1 q hq), ih h.2⟩

theorem objKeyOccurs_eq_false_iff {k : String} {es : List (String × JValue)} :
    objKeyOccurs k es = false ↔ ∀ q ∈ es, q.1 ≠ k := by
  induction es with
  | nil => simp [objKeyOccurs]
  | cons p rest ih =>
      obtain ⟨k2, v2⟩ := p
      simp [objKeyOccurs, ih]

theorem objKeysNodup_pairwise {es : List (String × JValue)}
    (h : objKeysNodup es = true) :
    es.Pairwise (fun a b => a.1 ≠ b.1) := by
  induction es with
  | nil => simp
  | cons p rest ih =>
      obtain ⟨k, v⟩ := p
      simp only [objKeysNodup, Bool.and_eq_true, Bool.not_eq_true'] at h
      refine List.Pairwise.cons ?_ (ih h.2)
      intro q hq
      exact fun hk => (objKeyOccurs_eq_false_iff.mp h.1) q hq (hk.symm)

/-- Core of the round-trip claim: on every supported dynamic value the
lowering succeeds and lifting the result restores the value exactly. -/
theorem roundtrip_supported :
    ∀ x, pySupported x = true →
      ∃ v, python_to_json_value x = .ok v ∧ json_value_to_python v = x := by
  refine pyObjInductionOn
    (fun x => pySupported x = true →
      ∃ v, python_to_json_value x = .ok v ∧ json_value_to_python v = x)
    ?_ ?_ ?_ ?_ ?_ ?_ ?_ ?_
  · intro _
    exact ⟨.null, lower_pynone, lift_null⟩
  · intro b _
    exact ⟨.bool b, lower_pybool b, lift_bool b⟩
  · intro i h
    simp only [pySupported, decide_eq_true_eq] at h
    exact ⟨.number (.int i), lower_pyint_inrange h.1 h.2,
      lift_number_int_inrange h.1 h.2⟩
  · intro f h
    simp only [pySupported] at h
    cases f with
    | fin q =>
        refine ⟨.number (.float q), ?_, lift_number_float q⟩
        rw [lower_pyfloat]
        simp [numberFromF64]
    | nan => simp [PyFloat.isFinite] at h
    | inf => simp [PyFloat.isFinite] at h
    | ninf => simp [PyFloat.isFinite] at h
  · intro s _
    exact ⟨.str s, lower_pystr s, lift_str s⟩
  · intro xs ihx h
    simp only [pySupported] at h
    have hall := pySupportedList_iff.mp h
    have hok : ∀ x ∈ xs, ∃ w, python_to_json_value x = .ok w :=
      fun x hx => ((ihx x hx) (hall x hx)).imp (fun v hv => hv.1)
    refine ⟨.arr (xs.map lowerOk), ?_, ?_⟩
    · rw [lower_pylist, lowerItems_ok xs hok]
      rfl
    · rw [lift_arr, liftItems_eq, List.map_map]
      have : xs.map (json_value_to_python ∘ lowerOk) = xs.map id := by
        refine List.map_congr_left ?_
        intro x hx
        obtain ⟨v, hv1, hv2⟩ := (ihx x hx) (hall x hx)
        simp [Function.comp, lowerOk, hv1, Except.toOption, hv2]
      rw [this, List.map_id]
  · intro es ihe h
    simp only [pySupported, Bool.and_eq_true] at h
    have hall := pySupportedEntries_iff.mp h.2
    have h1 : ∀ kv ∈ es, ∃ s, kv.1 = PyObj.str s :=
      fun kv hkv => isStrKey_exists (hall kv hkv).1
    have h2 : ∀ kv ∈ es, ∃ w, python_to_json_value kv.2 = .ok w :=
      fun kv hkv => ((ihe kv hkv) (hall kv hkv).2).imp (fun v hv => hv.1)
    have hlow := lowerEntries_ok es [] h1 h2 h.1 (by simp)
    have hpwPy := entryKeysNodup_pairwise h.1
    have hpw : (es.map (fun kv => (keyStr kv.1, lowerOk kv.2))).Pairwise
        (fun a b => a.1 ≠ b.1) := by
      rw [List.pairwise_map]
      refine hpwPy.imp_of_mem ?_
      intro a b ha hb hab
      obtain ⟨sa, hsa⟩ := h1 a ha
      obtain ⟨sb, hsb⟩ := h1 b hb
      rw [hsa, hsb] at hab
      simp only [pyKeyEq, decide_eq_false_iff_not] at hab
      rw [hsa, hsb]
      simp only [keyStr]
      exact fun hh => hab (hh.symm)
    refine ⟨.obj (es.map (fun kv => (keyStr kv.1, lowerOk kv.2))), ?_, ?_⟩
    · rw [lower_pydict, hlow]
      rfl
    · rw [lift_obj, liftEntries_eq _ [] hpw (by simp), List.map_map]
      have : es.map ((fun q => (PyObj.str q.1, json_value_to_python q.2)) ∘
          (fun kv => (keyStr kv.1, lowerOk kv.2))) = es.map id := by
        refine List.map_congr_left ?_
        intro kv hkv
        obtain ⟨s, hs⟩ := h1 kv hkv
        obtain ⟨v, hv1, hv2⟩ := (ihe kv hkv) (hall kv hkv).2
        have hlo : lowerOk kv.2 = v := by
          simp [lowerOk, hv1, Except.toOption]
        obtain ⟨k0, v0⟩ := kv
        simp only at hs
        subst hs
        simp [Function.comp, hlo, hv2, keyStr]
      rw [this, List.map_id]
      simp
  · intro t h
    simp [pySupported] at h


/-- C1 (amended): for every finite, acyclic dynamic value built only from
the six supported shapes — with, additionally, every float finite and every
integer within the signed 64-bit range — `lift(lower(x))` equals `x`
structurally, the integer/float distinction included.  (The two additional
hypotheses are forced by the counterexamples: a non-finite float lowers to
the sentinel integer 0, and an oversized integer lowers through the float
fallback.) -/
theorem C1_lift_lower_roundtrip (x : PyObj) (h : pySupported x = true) :
    Except.map json_value_to_python (python_to_json_value x) = .ok x := by
  obtain ⟨v, hv, hl⟩ := roundtrip_supported x h
  rw [hv]
  simp [Except.map, hl]

theorem C1_lift_lower_roundtrip_witness :
    pySupported
        (PyObj.dict
          [(.str "a", .int 1),
           (.str "b", .list [.float (.fin (3 / 2)), .bool true, .none]),
           (.str "c", .str "s")]) = true
    ∧ Except.map json_value_to_python
        (python_to_json_value
          (PyObj.dict
            [(.str "a", .int 1),
             (.str "b", .list [.float (.fin (3 / 2)), .bool true, .none]),
             (.str "c", .str "s")])) =
      .ok (PyObj.dict
        [(.str "a", .int 1),
         (.str "b", .list [.float (.fin (3 / 2)), .bool true, .none]),
         (.str "c", .str "s")]) := by
  have hs : pySupported
      (PyObj.dict
        [(.str "a", .int 1),
         (.str "b", .list [.float (.fin (3 / 2)), .bool true, .none]),
         (.str "c", .str "s")]) = true := by
    norm_num [pySupported, pySupportedList, pySupportedEntries, entryKeysNodup,
      keyOccurs, isStrKey, pyKeyEq, PyFloat.isFinite, i64Min, i64Max]
    decide
  exact ⟨hs, C1_lift_lower_roundtrip _ hs⟩

/-- C1 counterexample: the claim as stated fails on the non-finite float
NaN, which is a value of one of the six supported shapes: it lowers to the
sentinel `Number(0)` (an exact integer) and lifts back as the integer 0,
not as the original float. -/
theorem C1_counterexample_nan :
    ¬ Except.map json_value_to_python
        (python_to_json_value (PyObj.float PyFloat.nan)) =
      .ok (PyObj.float PyFloat.nan) := by
  intro h
  rw [lower_pyfloat] at h
  simp only [numberFromF64, Option.getD, Except.map] at h
  rw [show json_value_to_python (.number (.int 0)) = .int 0 from
    lift_number_int_inrange (by norm_num [i64Min]) (by norm_num [i64Max])] at h
  exact absurd (Except.ok.inj h) (by simp)

/-- C5: the lowering dispatches on the runtime type with null before bool
before 64-bit integer before float before text: `None` maps to `Null` and
every boolean maps to `Bool` — never to `Number`, although booleans are
numerically extractable in the host runtime (bool is an int subtype) —
every in-range integer maps to an integer-stored `Number`, although
integers are float-extractable, and text maps to `String`. -/
theorem C5_dispatch_precedence :
    python_to_json_value PyObj.none = .ok .null
    ∧ (∀ b, python_to_json_value (.bool b) = .ok (.bool b))
    ∧ extracti64 (.bool true) = .ok 1
    ∧ extracti64 (.bool false) = .ok 0
    ∧ extractf64 (.bool true) = .ok (.fin 1)
    ∧ (∀ i : Int, i64Min ≤ i → i ≤ i64Max →
        python_to_json_value (.int i) = .ok (.number (.int i))
        ∧ extractf64 (.int i) = .ok (.fin (i : Rat)))
    ∧ (∀ s, python_to_json_value (.str s) = .ok (.str s)) := by
  refine ⟨lower_pynone, lower_pybool, by simp [extracti64], by simp [extracti64],
    by simp [extractf64], ?_, lower_pystr⟩
  intro i h1 h2
  exact ⟨lower_pyint_inrange h1 h2, by simp [extractf64]⟩

theorem C5_dispatch_precedence_witness :
    python_to_json_value (.int 7) = .ok (.number (.int 7))
    ∧ extractf64 (.int 7) = .ok (.fin (7 : Rat)) :=
  C5_dispatch_precedence.2.2.2.2.2.1 7 (by decide) (by decide)

/-- C7: a non-finite float (NaN or an infinity) cannot be represented by
`serde_json::Number::from_f64`, and the lowering substitutes the sentinel
numeric zero instead of failing. -/
theorem C7_nonfinite_float_sentinel (f : PyFloat) (h : f.isFinite = false) :
    python_to_json_value (.float f) = .ok (.number (.int 0)) := by
  cases f with
  | fin q => simp [PyFloat.isFinite] at h
  | nan => rw [lower_pyfloat]; simp [numberFromF64]
  | inf => rw [lower_pyfloat]; simp [numberFromF64]
  | ninf => rw [lower_pyfloat]; simp [numberFromF64]

theorem C7_nonfinite_float_sentinel_witness :
    PyFloat.isFinite .inf = false
    ∧ python_to_json_value (.float .inf) = .ok (.number (.int 0)) :=
  ⟨rfl, C7_nonfinite_float_sentinel .inf rfl⟩

/-- C9: lowering any value whose runtime type is outside the six supported
shapes fails with the unsupported-type error, whose message is the constant
"Unsupported Python type" — independent of the value's actual type, so it
names no further detail. -/
theorem C9_unsupported_type_error (t : String) :
    python_to_json_value (.other t) =
      .error (.typeError "Unsupported Python type") :=
  lower_pyother t

theorem extractString_not_str {k : PyObj} (h : isStrKey k = false) :
    extractString k = .error (.extractTypeError "str") := by
  cases k <;> simp [isStrKey, extractString] at h ⊢

theorem lowerEntries_first_bad_key :
    ∀ (es1 : List (PyObj × PyObj)) (acc : List (String × JValue))
      (k v : PyObj) (es2 : List (PyObj × PyObj)),
    (∀ kv ∈ es1, ∃ s, kv.1 = PyObj.str s) →
    (∀ kv ∈ es1, ∃ w, python_to_json_value kv.2 = .ok w) →
    isStrKey k = false →
    lowerEntries acc (es1 ++ (k, v) :: es2) =
      .error (.extractTypeError "str") := by
  intro es1
  induction es1 with
  | nil =>
      intro acc k v es2 _ _ h3
      simp [lowerEntries, extractString_not_str h3, bind, Except.bind]
  | cons p rest ih =>
      intro acc k v es2 h1 h2 h3
      obtain ⟨kk, vv⟩ := p
      obtain ⟨s, hs⟩ := h1 (kk, vv) (by simp)
      obtain ⟨w, hw⟩ := h2 (kk, vv) (by simp)
      simp only at hs hw
      subst hs
      simp only [List.cons_append, lowerEntries, extractString, hw, bind,
        Except.bind]
      exact ih _ k v es2
        (fun kv hkv => h1 kv (by simp [hkv]))
        (fun kv hkv => h2 kv (by simp [hkv]))
        h3

/-- C10 (amended): lowering a mapping whose first non-text key is `k`,
where every earlier entry has a text key and a successfully lowering
value, fails with the key-extraction type error — the host `TypeError` of
the string extraction — not with the unsupported-type error, and returns
no partial object.  (The well-behaved-prefix condition is forced by the
counterexample: the loop processes keys and values in native order, so an
earlier value that itself fails to lower aborts with that value's error —
possibly the unsupported-type error — before the non-text key is
reached.) -/
theorem C10_dict_nontext_key (es1 : List (PyObj × PyObj)) (k v : PyObj)
    (es2 : List (PyObj × PyObj))
    (h1 : ∀ kv ∈ es1, ∃ s, kv.1 = PyObj.str s)
    (h2 : ∀ kv ∈ es1, ∃ w, python_to_json_value kv.2 = .ok w)
    (h3 : isStrKey k = false) :
    python_to_json_value (.dict (es1 ++ (k, v) :: es2)) =
      .error (.extractTypeError "str") := by
  rw [lower_pydict, lowerEntries_first_bad_key es1 [] k v es2 h1 h2 h3]
  rfl

/-- C10 counterexample: the claim as stated fails on a mapping that does
contain a non-text key but whose earlier entry carries a value of
unsupported type: the loop reaches that value first and fails with exactly
the unsupported-type error the claim rules out, not with the
key-extraction error. -/
theorem C10_dict_nontext_key_counterexample :
    python_to_json_value (.dict [(.str "a", .other "X"), (.int 5, .none)]) =
      .error (.typeError "Unsupported Python type")
    ∧ PyErr.typeError "Unsupported Python type" ≠ PyErr.extractTypeError "str" := by
  constructor
  · rw [lower_pydict]
    simp [lowerEntries, extractString, lower_pyother, bind, Except.bind,
      Except.map]
  · decide

theorem C10_dict_nontext_key_witness :
    python_to_json_value (.dict [(.str "a", .int 1), (.int 2, .none)]) =
      .error (.extractTypeError "str") :=
  C10_dict_nontext_key [(.str "a", .int 1)] (.int 2) .none []
    (by
      intro kv hkv
      simp only [List.mem_singleton] at hkv
      subst hkv
      exact ⟨"a", rfl⟩)
    (by
      intro kv hkv
      simp only [List.mem_singleton] at hkv
      subst hkv
      exact ⟨.number (.int 1), lower_pyint_inrange (by decide) (by decide)⟩)
    rfl

theorem results_cons_error {x : PyObj} {l : List PyObj} {e : PyErr}
    (h : pythonResultToRustItem x = .error e) :
    python_results_to_rust (x :: l) = .error e := by
  simp [python_results_to_rust, h, bind, Except.bind]

theorem item_invalid_type {es : List (PyObj × PyObj)} {t p : String}
    (ht : dictGet es "type" = some (.str t))
    (hp : dictGet es "path" = some (.str p))
    (h1 : t ≠ "Added") (h2 : t ≠ "Removed") (h3 : t ≠ "Modified")
    (h4 : t ≠ "TypeChanged") :
    pythonResultToRustItem (.dict es) =
      .error (.valueError ("Invalid diff type: " ++ t)) := by
  simp only [pythonResultToRustItem, downcastDict, ht, hp, extractString, bind,
    Except.bind]

theorem item_bad_type_not_ok {es : List (PyObj × PyObj)} {t : String}
    (ht : dictGet es "type" = some (.str t))
    (h1 : t ≠ "Added") (h2 : t ≠ "Removed") (h3 : t ≠ "Modified")
    (h4 : t ≠ "TypeChanged") :
    ∀ r, pythonResultToRustItem (.dict es) ≠ .ok r := by
  intro r h
  simp only [pythonResultToRustItem, downcastDict, ht, extractString, bind,
    Except.bind] at h
  repeat split at h
  all_goals simp_all

theorem results_not_ok_of_mem {l : List PyObj} {x : PyObj}
    (hx : x ∈ l) (h : ∀ r, pythonResultToRustItem x ≠ .ok r) :
    ∀ res, python_results_to_rust l ≠ .ok res := by
  induction l with
  | nil => simp at hx
  | cons y ys ih =>
      intro res hres
      simp only [python_results_to_rust, bind, Except.bind] at hres
      cases hy : pythonResultToRustItem y with
      | error e => rw [hy] at hres; exact absurd hres (by simp)
      | ok r =>
          rw [hy] at hres
          cases hrec : python_results_to_rust ys with
          | error e => rw [hrec] at hres; exact absurd hres (by simp)
          | ok rs =>
              rcases List.mem_cons.mp hx with hxy | hxys
              · exact h r (hxy ▸ hy)
              · exact ih hxys rs hrec

/-- C2 (amended): decode dispatches on the type string and accepts only the
four variants Added, Removed, Modified, TypeChanged.  For an input object
whose `"type"` field holds any other string and whose `"path"` field is
present as text, decode fails with exactly `InvalidDiffType` carrying that
type string; and whenever any input object in the list carries such a type
string, decode never returns a result list at all — though when the
`"path"` field is absent or non-text the error surfaced is the path error,
not `InvalidDiffType` (the correction the counterexample forces). -/
theorem C2_decode_invalid_type :
    (∀ (es : List (PyObj × PyObj)) (rest : List PyObj) (t p : String),
      dictGet es "type" = some (.str t) →
      dictGet es "path" = some (.str p) →
      t ≠ "Added" → t ≠ "Removed" → t ≠ "Modified" → t ≠ "TypeChanged" →
      python_results_to_rust (PyObj.dict es :: rest) =
        .error (.valueError ("Invalid diff type: " ++ t)))
    ∧ (∀ (l : List PyObj) (es : List (PyObj × PyObj)) (t : String)
        (res : List DiffResult),
      PyObj.dict es ∈ l →
      dictGet es "type" = some (.str t) →
      t ≠ "Added" → t ≠ "Removed" → t ≠ "Modified" → t ≠ "TypeChanged" →
      python_results_to_rust l ≠ .ok res) := by
  constructor
  · intro es rest t p ht hp h1 h2 h3 h4
    exact results_cons_error (item_invalid_type ht hp h1 h2 h3 h4)
  · intro l es t res hmem ht h1 h2 h3 h4
    exact results_not_ok_of_mem hmem (item_bad_type_not_ok ht h1 h2 h3 h4) res

theorem C2_decode_invalid_type_witness :
    python_results_to_rust
        [PyObj.dict [(.str "type", .str "TensorShapeChanged"),
          (.str "path", .str "weights")]] =
      .error (.valueError ("Invalid diff type: " ++ "TensorShapeChanged")) :=
  C2_decode_invalid_type.1
    [(.str "type", .str "TensorShapeChanged"), (.str "path", .str "weights")]
    [] "TensorShapeChanged" "weights"
    (by simp [dictGet, pyKeyEq])
    (by simp [dictGet, pyKeyEq])
    (by decide) (by decide) (by decide) (by decide)

/-- C2 counterexample: the claim as stated fails on an input object whose
type string is unsupported but whose `"path"` field is absent — decode then
fails with the missing-path error, not with `InvalidDiffType`. -/
theorem C2_decode_invalid_type_counterexample :
    python_results_to_rust
        [PyObj.dict [(.str "type", .str "TensorShapeChanged")]] =
      .error (.valueError "Missing 'path' field")
    ∧ PyErr.valueError "Missing 'path' field" ≠
        PyErr.valueError ("Invalid diff type: " ++ "TensorShapeChanged") := by
  constructor
  · simp [python_results_to_rust, pythonResultToRustItem, downcastDict, dictGet,
      pyKeyEq, extractString, bind, Except.bind]
  · decide

/-- C8 (amended): decode reads `"type"` first and `"path"` second, then the
per-variant payload fields, and fails with the missing-field error naming
the first absent field it reaches — provided the fields it reads on the way
are present as text: if `"type"` is absent the error names `type`; if
`"type"` extracts as text and `"path"` is absent the error names `path`;
for the four supported variants with type and path present as text, an
absent required payload field (`value` for Added/Removed, `old_value` and
then `new_value` for Modified/TypeChanged) is named.  (When an earlier
field is present but non-text, the extraction `TypeError` surfaces instead
— the correction the counterexample forces.) -/
theorem C8_decode_missing_fields :
    (∀ (es : List (PyObj × PyObj)) (rest : List PyObj),
      dictGet es "type" = Option.none →
      python_results_to_rust (PyObj.dict es :: rest) =
        .error (.valueError "Missing 'type' field"))
    ∧ (∀ (es : List (PyObj × PyObj)) (rest : List PyObj) (t : String),
      dictGet es "type" = some (.str t) →
      dictGet es "path" = Option.none →
      python_results_to_rust (PyObj.dict es :: rest) =
        .error (.valueError "Missing 'path' field"))
    ∧ (∀ (es : List (PyObj × PyObj)) (rest : List PyObj) (p : String),
      dictGet es "type" = some (.str "Added") →
      dictGet es "path" = some (.str p) →
      dictGet es "value" = Option.none →
      python_results_to_rust (PyObj.dict es :: rest) =
        .error (.valueError "Missing 'value' field"))
    ∧ (∀ (es : List (PyObj × PyObj)) (rest : List PyObj) (p : String),
      dictGet es "type" = some (.str "Removed") →
      dictGet es "path" = some (.str p) →
      dictGet es "value" = Option.none →
      python_results_to_rust (PyObj.dict es :: rest) =
        .error (.valueError "Missing 'value' field"))
    ∧ (∀ (es : List (PyObj × PyObj)) (rest : List PyObj) (p : String),
      dictGet es "type" = some (.str "Modified") →
      dictGet es "path" = some (.str p) →
      dictGet es "old_value" = Option.none →
      python_results_to_rust (PyObj.dict es :: rest) =
        .error (.valueError "Missing 'old_value' field"))
    ∧ (∀ (es : List (PyObj × PyObj)) (rest : List PyObj) (p : String)
        (ov : PyObj),
      dictGet es "type" = some (.str "Modified") →
      dictGet es "path" = some (.str p) →
      dictGet es "old_value" = some ov →
      dictGet es "new_value" = Option.none →
      python_results_to_rust (PyObj.dict es :: rest) =
        .error (.valueError "Missing 'new_value' field"))
    ∧ (∀ (es : List (PyObj × PyObj)) (rest : List PyObj) (p : String),
      dictGet es "type" = some (.str "TypeChanged") →
      dictGet es "path" = some (.str p) →
      dictGet es "old_value" = Option.none →
      python_results_to_rust (PyObj.dict es :: rest) =
        .error (.valueError "Missing 'old_value' field"))
    ∧ (∀ (es : List (PyObj × PyObj)) (rest : List PyObj) (p : String)
        (ov : PyObj),
      dictGet es "type" = some (.str "TypeChanged") →
      dictGet es "path" = some (.str p) →
      dictGet es "old_value" = some ov →
      dictGet es "new_value" = Option.none →
      python_results_to_rust (PyObj.dict es :: rest) =
        .error (.valueError "Missing 'new_value' field")) := by
  refine ⟨?_, ?_, ?_, ?_, ?_, ?_, ?_, ?_⟩
  · intro es rest ht
    refine results_cons_error ?_
    simp only [pythonResultToRustItem, downcastDict, ht, bind, Except.bind]
  · intro es rest t ht hp
    refine results_cons_error ?_
    simp only [pythonResultToRustItem, downcastDict, ht, hp, extractString,
      bind, Except.bind]
  · intro es rest p ht hp hv
    refine results_cons_error ?_
    simp only [pythonResultToRustItem, downcastDict, ht, hp, hv, extractString,
      bind, Except.bind]
  · intro es rest p ht hp hv
    refine results_cons_error ?_
    simp only [pythonResultToRustItem, downcastDict, ht, hp, hv, extractString,
      bind, Except.bind]
  · intro es rest p ht hp ho
    refine results_cons_error ?_
    simp only [pythonResultToRustItem, downcastDict, ht, hp, ho, extractString,
      bind, Except.bind]
  · intro es rest p ov ht hp ho hn
    refine results_cons_error ?_
    simp only [pythonResultToRustItem, downcastDict, ht, hp, ho, hn,
      extractString, bind, Except.bind]
  · intro es rest p ht hp ho
    refine results_cons_error ?_
    simp only [pythonResultToRustItem, downcastDict, ht, hp, ho, extractString,
      bind, Except.bind]
  · intro es rest p ov ht hp ho hn
    refine results_cons_error ?_
    simp only [pythonResultToRustItem, downcastDict, ht, hp, ho, hn,
      extractString, bind, Except.bind]

theorem C8_decode_missing_fields_witness :
    python_results_to_rust [PyObj.dict []] =
      .error (.valueError "Missing 'type' field") :=
  C8_decode_missing_fields.1 [] [] (by simp [dictGet])

/-- C8 counterexample: the claim as stated fails on an input object whose
`"path"` field is absent but whose `"type"` field is present as a non-text
value — decode then fails with the extraction `TypeError` of the type
field, not with a missing-field error naming `path`. -/
theorem C8_decode_missing_fields_counterexample :
    python_results_to_rust [PyObj.dict [(.str "type", .int 5)]] =
      .error (.extractTypeError "str")
    ∧ dictGet [(PyObj.str "type", PyObj.int 5)] "path" = Option.none
    ∧ PyErr.extractTypeError "str" ≠ PyErr.valueError "Missing 'path' field" := by
  refine ⟨?_, by simp [dictGet, pyKeyEq], by decide⟩
  simp [python_results_to_rust, pythonResultToRustItem, downcastDict, dictGet,
    pyKeyEq, extractString, bind, Except.bind]

/-- C6 (amended): for every configuration object in which one of the five
recognized keys is bound to a value of the wrong dynamic type, and every
key the builder processes earlier in its fixed order (epsilon,
array_id_key, ignore_keys_regex, path_filter, output_format) is either
absent or processed successfully, build fails with exactly that key's
type-extraction error, propagated unchanged — so the error identifies the
failed type conversion but not which key was at fault.  (Both amendments
are forced by the counterexamples: two different keys of the same expected
type produce literally identical errors, and a failure at an
earlier-processed key — such as an invalid regex pattern — preempts the
type-extraction error of a later key.) -/
theorem C6_options_wrong_type :
    (∀ (kw : List (PyObj × PyObj)) (v : PyObj) (e : PyErr),
      dictGet kw "epsilon" = some v →
      extractf64 v = .error e →
      build_options_from_kwargs (some kw) = .error e)
    ∧ (∀ (kw : List (PyObj × PyObj)) (v : PyObj) (e : PyErr),
      (dictGet kw "epsilon" = Option.none ∨
        ∃ x f, dictGet kw "epsilon" = some x ∧ extractf64 x = .ok f) →
      dictGet kw "array_id_key" = some v →
      extractString v = .error e →
      build_options_from_kwargs (some kw) = .error e)
    ∧ (∀ (kw : List (PyObj × PyObj)) (v : PyObj) (e : PyErr),
      (dictGet kw "epsilon" = Option.none ∨
        ∃ x f, dictGet kw "epsilon" = some x ∧ extractf64 x = .ok f) →
      (dictGet kw "array_id_key" = Option.none ∨
        ∃ x s, dictGet kw "array_id_key" = some x ∧ extractString x = .ok s) →
      dictGet kw "ignore_keys_regex" = some v →
      extractString v = .error e →
      build_options_from_kwargs (some kw) = .error e)
    ∧ (∀ (kw : List (PyObj × PyObj)) (v : PyObj) (e : PyErr),
      (dictGet kw "epsilon" = Option.none ∨
        ∃ x f, dictGet kw "epsilon" = some x ∧ extractf64 x = .ok f) →
      (dictGet kw "array_id_key" = Option.none ∨
        ∃ x s, dictGet kw "array_id_key" = some x ∧ extractString x = .ok s) →
      (dictGet kw "ignore_keys_regex" = Option.none ∨
        ∃ x s r, dictGet kw "ignore_keys_regex" = some x ∧
          extractString x = .ok s ∧ regexNew s = .ok r) →
      dictGet kw "path_filter" = some v →
      extractString v = .error e →
      build_options_from_kwargs (some kw) = .error e)
    ∧ (∀ (kw : List (PyObj × PyObj)) (v : PyObj) (e : PyErr),
      (dictGet kw "epsilon" = Option.none ∨
        ∃ x f, dictGet kw "epsilon" = some x ∧ extractf64 x = .ok f) →
      (dictGet kw "array_id_key" = Option.none ∨
        ∃ x s, dictGet kw "array_id_key" = some x ∧ extractString x = .ok s) →
      (dictGet kw "ignore_keys_regex" = Option.none ∨
        ∃ x s r, dictGet kw "ignore_keys_regex" = some x ∧
          extractString x = .ok s ∧ regexNew s = .ok r) →
      (dictGet kw "path_filter" = Option.none ∨
        ∃ x s, dictGet kw "path_filter" = some x ∧ extractString x = .ok s) →
      dictGet kw "output_format" = some v →
      extractString v = .error e →
      build_options_from_kwargs (some kw) = .error e) := by
  refine ⟨?_, ?_, ?_, ?_, ?_⟩
  · intro kw v e h1 hv
    simp only [build_options_from_kwargs, h1, hv, bind, Except.bind]
  · intro kw v e h0 h1 hv
    rcases h0 with h0 | ⟨x0, f0, h0, hf0⟩ <;>
      simp only [build_options_from_kwargs, bind, Except.bind, pure,
        Except.pure, *]
  · intro kw v e h0 ha h1 hv
    rcases h0 with h0 | ⟨x0, f0, h0, hf0⟩ <;>
      rcases ha with ha | ⟨x1, s1, ha, hs1⟩ <;>
        simp only [build_options_from_kwargs, bind, Except.bind, pure,
          Except.pure, *]
  · intro kw v e h0 ha hr h1 hv
    rcases h0 with h0 | ⟨x0, f0, h0, hf0⟩ <;>
      rcases ha with ha | ⟨x1, s1, ha, hs1⟩ <;>
        rcases hr with hr | ⟨x2, s2, r2, hr, hs2, hr2⟩ <;>
          simp only [build_options_from_kwargs, bind, Except.bind, pure,
            Except.pure, *]
  · intro kw v e h0 ha hr hp h1 hv
    rcases h0 with h0 | ⟨x0, f0, h0, hf0⟩ <;>
      rcases ha with ha | ⟨x1, s1, ha, hs1⟩ <;>
        rcases hr with hr | ⟨x2, s2, r2, hr, hs2, hr2⟩ <;>
          rcases hp with hp | ⟨x3, s3, hp, hs3⟩ <;>
            simp only [build_options_from_kwargs, bind, Except.bind, pure,
              Except.pure, *]

theorem C6_options_wrong_type_witness :
    extractf64 (.str "abc") = .error (.extractTypeError "float")
    ∧ build_options_from_kwargs (some [(.str "epsilon", .str "abc")]) =
        .error (.extractTypeError "float") :=
  ⟨rfl, C6_options_wrong_type.1 [(.str "epsilon", .str "abc")] (.str "abc")
    (.extractTypeError "float") (by simp [dictGet, pyKeyEq]) rfl⟩

/-- C6 counterexample: the claim as stated fails in two ways.  The
type-extraction error does not identify which key was at fault: binding
`array_id_key` and binding `path_filter` to the same wrongly-typed value
produce literally identical errors.  And the failure is not always the
wrongly-typed key's type-extraction error: with `ignore_keys_regex` bound
to an invalid pattern and `path_filter` bound to a wrongly-typed value,
build fails with the regex error of the earlier-processed key instead. -/
theorem C6_options_wrong_type_counterexample :
    build_options_from_kwargs (some [(.str "array_id_key", .int 5)]) =
      .error (.extractTypeError "str")
    ∧ build_options_from_kwargs (some [(.str "path_filter", .int 5)]) =
      .error (.extractTypeError "str")
    ∧ build_options_from_kwargs
        (some [(.str "ignore_keys_regex", .str "("), (.str "path_filter", .int 5)]) =
      .error (.valueError ("Invalid regex: " ++ "("))
    ∧ PyErr.valueError ("Invalid regex: " ++ "(") ≠ PyErr.extractTypeError "str" := by
  refine ⟨?_, ?_, ?_, by decide⟩
  · simp [build_options_from_kwargs, dictGet, pyKeyEq, extractString, bind,
      Except.bind, pure, Except.pure]
  · simp [build_options_from_kwargs, dictGet, pyKeyEq, extractString, bind,
      Except.bind, pure, Except.pure]
  · rfl

/-- C4: encode is total over all fifteen `DiffResult` variants and produces
exactly the object the spec's §3/§4.2 table prescribes: a `"type"` field
holding the variant's exact name, a `"path"` field holding the path text,
then the per-variant payload fields in table order, with `TensorStats`
encoded as an object with its seven named fields (totality is by
construction: `diff_result_to_python` and `tensor_stats_to_python` are
total functions of the embedding). -/
theorem C4_encode_matches_spec_table :
    (∀ r, diff_result_to_python r = specEncodeDiffResult r)
    ∧ (∀ stats, tensor_stats_to_python stats = specEncodeTensorStats stats) := by
  have hstats : ∀ stats, tensor_stats_to_python stats = specEncodeTensorStats stats := by
    intro stats
    simp [tensor_stats_to_python, specEncodeTensorStats, pyDictOf, dictSetItem,
      pyKeyEq]
  refine ⟨?_, hstats⟩
  intro r
  cases r <;>
    simp [diff_result_to_python, specEncodeDiffResult, pyDictOf, dictSetItem,
      pyKeyEq, hstats]

theorem wfList_iff {xs : List JValue} :
    JValue.wfList xs = true ↔ ∀ x ∈ xs, JValue.wf x = true := by
  induction xs with
  | nil => simp [JValue.wfList]
  | cons x rest ih => simp [JValue.wfList, ih]

theorem wfEntries_iff {es : List (String × JValue)} :
    JValue.wfEntries es = true ↔ ∀ kv ∈ es, JValue.wf kv.2 = true := by
  induction es with
  | nil => simp [JValue.wfEntries]
  | cons p rest ih =>
      obtain ⟨k, v⟩ := p
      simp [JValue.wfEntries, ih]

theorem jnormList_eq_map (xs : List JValue) : jnormList xs = xs.map jnorm := by
  induction xs with
  | nil => simp [jnormList]
  | cons x rest ih => simp [jnormList, ih]

theorem jnormEntries_eq_map (es : List (String × JValue)) :
    jnormEntries es = es.map (fun kv => (kv.1, jnorm kv.2)) := by
  induction es with
  | nil => simp [jnormEntries]
  | cons p rest ih =>
      obtain ⟨k, v⟩ := p
      simp [jnormEntries, ih]

theorem liftEntries_congr_entries :
    ∀ (es : List (String × JValue)) (acc : List (PyObj × PyObj)),
    (∀ kv ∈ es, json_value_to_python (jnorm kv.2) = json_value_to_python kv.2) →
    liftEntries acc (jnormEntries es) = liftEntries acc es := by
  intro es
  induction es with
  | nil => intro acc _; simp [jnormEntries]
  | cons p rest ih =>
      intro acc h
      obtain ⟨k, v⟩ := p
      rw [jnormEntries]
      rw [liftEntries, liftEntries, h (k, v) (by simp)]
      exact ih _ (fun kv hkv => h kv (by simp [hkv]))

/-- Lifting does not distinguish a value from its round-trip
normalization. -/
theorem lift_jnorm : ∀ v, json_value_to_python (jnorm v) = json_value_to_python v := by
  refine jvalueInductionOn
    (fun v => json_value_to_python (jnorm v) = json_value_to_python v)
    ?_ ?_ ?_ ?_ ?_ ?_
  · simp [jnorm]
  · intro b
    simp [jnorm]
  · intro n
    cases n with
    | int i =>
        by_cases h : i64Min ≤ i ∧ i ≤ i64Max
        · rw [jnorm]
          simp [h]
        · rw [jnorm]
          simp only [h, if_false]
          rw [lift_number_int_big h, lift_number_float]
    | float q => rw [jnorm]
  · intro s
    simp [jnorm]
  · intro xs ih
    rw [jnorm, lift_arr, lift_arr, liftItems_eq, liftItems_eq,
      jnormList_eq_map, List.map_map]
    congr 1
    exact List.map_congr_left (fun x hx => by
      have := ih x hx
      simpa [Function.comp] using this)
  · intro es ih
    rw [jnorm, lift_obj, lift_obj]
    congr 1
    exact liftEntries_congr_entries es [] (fun kv hkv => ih kv hkv)

/-- Lowering a lifted well-formed canonical value succeeds and produces its
round-trip normalization. -/
theorem lower_lift_norm :
    ∀ v, JValue.wf v = true →
      python_to_json_value (json_value_to_python v) = .ok (jnorm v) := by
  refine jvalueInductionOn
    (fun v => JValue.wf v = true →
      python_to_json_value (json_value_to_python v) = .ok (jnorm v))
    ?_ ?_ ?_ ?_ ?_ ?_
  · intro _
    rw [lift_null, lower_pynone, jnorm]
  · intro b _
    rw [lift_bool, lower_pybool, jnorm]
  · intro n h
    cases n with
    | int i =>
        by_cases hr : i64Min ≤ i ∧ i ≤ i64Max
        · rw [lift_number_int_inrange hr.1 hr.2, lower_pyint_inrange hr.1 hr.2,
            jnorm]
          simp [hr]
        · rw [lift_number_int_big hr, lower_pyfloat, jnorm]
          simp only [hr, if_false]
          simp [numberFromF64]
    | float q =>
        rw [lift_number_float, lower_pyfloat, jnorm]
        simp [numberFromF64]
  · intro s _
    rw [lift_str, lower_pystr, jnorm]
  · intro xs ih h
    simp only [JValue.wf] at h
    have hall := wfList_iff.mp h
    rw [lift_arr, liftItems_eq, lower_pylist]
    have hok : ∀ y ∈ xs.map json_value_to_python, ∃ w, python_to_json_value y = .ok w := by
      intro y hy
      obtain ⟨x, hx, hxy⟩ := List.mem_map.mp hy
      exact ⟨jnorm x, hxy ▸ ih x hx (hall x hx)⟩
    rw [lowerItems_ok _ hok]
    simp only [Except.map, List.map_map]
    congr 1
    rw [jnorm]
    congr 1
    rw [jnormList_eq_map]
    refine List.map_congr_left ?_
    intro x hx
    have := ih x hx (hall x hx)
    simp [Function.comp, lowerOk, this, Except.toOption]
  · intro es ih h
    simp only [JValue.wf, Bool.and_eq_true] at h
    have hall := wfEntries_iff.mp h.2
    have hpw := objKeysNodup_pairwise h.1
    rw [lift_obj, liftEntries_eq es [] hpw (by simp), lower_pydict]
    simp only [List.nil_append]
    have h1 : ∀ kv ∈ es.map (fun q => (PyObj.str q.1, json_value_to_python q.2)),
        ∃ s, kv.1 = PyObj.str s := by
      intro kv hkv
      obtain ⟨q, hq, hqe⟩ := List.mem_map.mp hkv
      exact ⟨q.1, by rw [← hqe]⟩
    have h2 : ∀ kv ∈ es.map (fun q => (PyObj.str q.1, json_value_to_python q.2)),
        ∃ w, python_to_json_value kv.2 = .ok w := by
      intro kv hkv
      obtain ⟨q, hq, hqe⟩ := List.mem_map.mp hkv
      exact ⟨jnorm q.2, by rw [← hqe]; exact ih q hq (hall q hq)⟩
    have h3 : entryKeysNodup
        (es.map (fun q => (PyObj.str q.1, json_value_to_python q.2))) = true := by
      refine entryKeysNodup_of_pairwise ?_
      rw [List.pairwise_map]
      refine hpw.imp ?_
      intro a b hab
      simp [pyKeyEq]
      exact fun hh => hab (hh.symm)
    rw [lowerEntries_ok _ [] h1 h2 h3 (by simp)]
    simp only [Except.map, List.map_map]
    congr 1
    rw [jnorm]
    congr 1
    rw [jnormEntries_eq_map]
    refine List.map_congr_left ?_
    intro q hq
    have := ih q hq (hall q hq)
    simp [Function.comp, keyStr, lowerOk, this, Except.toOption]

theorem decode_encode_added (p : String) (v : JValue) (h : JValue.wf v = true) :
    pythonResultToRustItem (diff_result_to_python (.Added p v)) =
      .ok (.Added p (jnorm v)) := by
  have hred : diff_result_to_python (.Added p v) =
      .dict [(.str "type", .str "Added"), (.str "path", .str p),
        (.str "value", json_value_to_python v)] := by
    simp [diff_result_to_python, pyDictOf, dictSetItem, pyKeyEq]
  rw [hred]
  simp [pythonResultToRustItem, downcastDict, dictGet, pyKeyEq, extractString,
    bind, Except.bind, lower_lift_norm v h, pure, Except.pure]

theorem decode_encode_removed (p : String) (v : JValue) (h : JValue.wf v = true) :
    pythonResultToRustItem (diff_result_to_python (.Removed p v)) =
      .ok (.Removed p (jnorm v)) := by
  have hred : diff_result_to_python (.Removed p v) =
      .dict [(.str "type", .str "Removed"), (.str "path", .str p),
        (.str "value", json_value_to_python v)] := by
    simp [diff_result_to_python, pyDictOf, dictSetItem, pyKeyEq]
  rw [hred]
  simp [pythonResultToRustItem, downcastDict, dictGet, pyKeyEq, extractString,
    bind, Except.bind, lower_lift_norm v h, pure, Except.pure]

theorem decode_encode_modified (p : String) (v1 v2 : JValue)
    (h1 : JValue.wf v1 = true) (h2 : JValue.wf v2 = true) :
    pythonResultToRustItem (diff_result_to_python (.Modified p v1 v2)) =
      .ok (.Modified p (jnorm v1) (jnorm v2)) := by
  have hred : diff_result_to_python (.Modified p v1 v2) =
      .dict [(.str "type", .str "Modified"), (.str "path", .str p),
        (.str "old_value", json_value_to_python v1),
        (.str "new_value", json_value_to_python v2)] := by
    simp [diff_result_to_python, pyDictOf, dictSetItem, pyKeyEq]
  rw [hred]
  simp [pythonResultToRustItem, downcastDict, dictGet, pyKeyEq, extractString,
    bind, Except.bind, lower_lift_norm v1 h1, lower_lift_norm v2 h2, pure,
    Except.pure]

theorem decode_encode_typechanged (p : String) (v1 v2 : JValue)
    (h1 : JValue.wf v1 = true) (h2 : JValue.wf v2 = true) :
    pythonResultToRustItem (diff_result_to_python (.TypeChanged p v1 v2)) =
      .ok (.TypeChanged p (jnorm v1) (jnorm v2)) := by
  have hred : diff_result_to_python (.TypeChanged p v1 v2) =
      .dict [(.str "type", .str "TypeChanged"), (.str "path", .str p),
        (.str "old_value", json_value_to_python v1),
        (.str "new_value", json_value_to_python v2)] := by
    simp [diff_result_to_python, pyDictOf, dictSetItem, pyKeyEq]
  rw [hred]
  simp [pythonResultToRustItem, downcastDict, dictGet, pyKeyEq, extractString,
    bind, Except.bind, lower_lift_norm v1 h1, lower_lift_norm v2 h2, pure,
    Except.pure]

/-- C3: on the four decode-supported variants, with arbitrary well-formed
nested value payloads, re-encoding the decode of an encoded result
reproduces the encoding exactly: `encode(decode(encode(r))) = encode(r)`
(the well-formedness hypotheses state the invariants every real
`serde_json::Value` payload carries by construction: integer storage within
the `i64`/`u64` range and unique object keys). -/
theorem C3_encode_decode_encode :
    (∀ (p : String) (v : JValue), JValue.wf v = true →
      Except.map (List.map diff_result_to_python)
        (python_results_to_rust [diff_result_to_python (.Added p v)]) =
      .ok [diff_result_to_python (.Added p v)])
    ∧ (∀ (p : String) (v : JValue), JValue.wf v = true →
      Except.map (List.map diff_result_to_python)
        (python_results_to_rust [diff_result_to_python (.Removed p v)]) =
      .ok [diff_result_to_python (.Removed p v)])
    ∧ (∀ (p : String) (v1 v2 : JValue),
        JValue.wf v1 = true → JValue.wf v2 = true →
      Except.map (List.map diff_result_to_python)
        (python_results_to_rust [diff_result_to_python (.Modified p v1 v2)]) =
      .ok [diff_result_to_python (.Modified p v1 v2)])
    ∧ (∀ (p : String) (v1 v2 : JValue),
        JValue.wf v1 = true → JValue.wf v2 = true →
      Except.map (List.map diff_result_to_python)
        (python_results_to_rust [diff_result_to_python (.TypeChanged p v1 v2)]) =
      .ok [diff_result_to_python (.TypeChanged p v1 v2)]) := by
  refine ⟨?_, ?_, ?_, ?_⟩
  · intro p v h
    rw [python_results_to_rust]
    simp only [decode_encode_added p v h, python_results_to_rust, bind,
      Except.bind, pure, Except.pure, Except.map, List.map]
    simp [diff_result_to_python, lift_jnorm]
  · intro p v h
    rw [python_results_to_rust]
    simp only [decode_encode_removed p v h, python_results_to_rust, bind,
      Except.bind, pure, Except.pure, Except.map, List.map]
    simp [diff_result_to_python, lift_jnorm]
  · intro p v1 v2 h1 h2
    rw [python_results_to_rust]
    simp only [decode_encode_modified p v1 v2 h1 h2, python_results_to_rust,
      bind, Except.bind, pure, Except.pure, Except.map, List.map]
    simp [diff_result_to_python, lift_jnorm]
  · intro p v1 v2 h1 h2
    rw [python_results_to_rust]
    simp only [decode_encode_typechanged p v1 v2 h1 h2, python_results_to_rust,
      bind, Except.bind, pure, Except.pure, Except.map, List.map]
    simp [diff_result_to_python, lift_jnorm]

theorem C3_encode_decode_encode_witness :
    JValue.wf (.obj [("a", .number (.int 1))]) = true
    ∧ JValue.wf (.number (.int 2)) = true
    ∧ Except.map (List.map diff_result_to_python)
        (python_results_to_rust
          [diff_result_to_python
            (.Modified "a" (.obj [("a", .number (.int 1))]) (.number (.int 2)))]) =
      .ok [diff_result_to_python
        (.Modified "a" (.obj [("a", .number (.int 1))]) (.number (.int 2)))] := by
  have h1 : JValue.wf (JValue.obj [("a", .number (.int 1))]) = true := by
    rw [JValue.wf]
    simp [objKeysNodup, objKeyOccurs, JValue.wfEntries, JValue.wf, i64Min]
  have h2 : JValue.wf (JValue.number (.int 2)) = true := by
    rw [JValue.wf]
    simp [i64Min]
  exact ⟨h1, h2, C3_encode_decode_encode.2.2.1 "a" _ _ h1 h2⟩
